import Mathlib

/-!
Verification of the helpdesk triage pipeline.

The definitions below are a shallow embedding of the triage core:

* the deterministic stub classifier and draft composer
  (backend/src/services/llmService.js, class LLMProvider);
* the knowledge-base retriever scoring and ranking
  (backend/src/services/kbService.js, class KnowledgeBaseService);
* the orchestrator: workflow planning, step execution, the decision step and
  suggestion acceptance and rejection
  (backend/src/services/agentService.js, class AgentService);
* the configuration document (backend/src/models/Config.js schema defaults).

JavaScript numbers are modelled as rationals, store documents as Lean
structures, and each store or queue interaction (an I/O boundary) as explicit
state passing over a `DB` record.  The three pipeline steps that call external
services (classify, retrieve, draft) are passed to the orchestrator as
`Except`-valued outcomes, exactly mirroring which code can throw.
-/

namespace Helpdesk

/-- Ticket and suggestion category enum, in schema declaration order
(models/Ticket.js: enum of billing, tech, shipping, other). -/
inductive Category
  | billing
  | tech
  | shipping
  | other
  deriving DecidableEq, Repr

/-- Ticket status enum (models/Ticket.js). -/
inductive TStatus
  | open_
  | triaged
  | waiting_human
  | resolved
  | closed
  deriving DecidableEq, Repr

/-- The string name of a category, as stored on documents. -/
def Category.name : Category → String
  | .billing => "billing"
  | .tech => "tech"
  | .shipping => "shipping"
  | .other => "other"

/-- Declaration index of a category in the keyword table of
llmService._stubClassify (the iteration order of Object.keys). -/
def declIndex : Category → Nat
  | .billing => 0
  | .tech => 1
  | .shipping => 2
  | .other => 3

/-! ## Classifier (llmService._stubClassify) -/

/-- Keyword list for billing (llmService._stubClassify). -/
def keywordsBilling : List String :=
  ["refund", "invoice", "payment", "charge", "billing", "credit", "money",
   "price", "cost", "fee"]

/-- Keyword list for tech. -/
def keywordsTech : List String :=
  ["error", "bug", "crash", "broken", "technical", "code", "stack", "login",
   "password", "api"]

/-- Keyword list for shipping. -/
def keywordsShipping : List String :=
  ["delivery", "shipment", "package", "shipping", "tracking", "arrived",
   "delayed", "address"]

/-- Keyword list for the catch-all category. -/
def keywordsOther : List String :=
  ["general", "question", "help", "support", "information", "contact"]

/-- The lowercasing `toLowerCase()` on the character list: JavaScript
lowercases each
character; for the basic latin inputs the pipeline handles this is
`Char.toLower` applied characterwise.  (Defined on the list of characters so
that it reduces inside the kernel.) -/
def lowerString (s : String) : String :=
  String.mk (s.data.map Char.toLower)

/-- Number of non-overlapping occurrences of `kw` in `text`, scanning left to
right, as computed by the JavaScript `text.match(new RegExp(kw, "g")).length`
for a keyword with no regex metacharacters.  The first argument is recursion
fuel; callers pass the text length, which always suffices because each step
consumes at least one character. -/
def countOccsAux : Nat → List Char → List Char → Nat
  | 0, _, _ => 0
  | _ + 1, _, [] => 0
  | fuel + 1, kw, c :: rest =>
    if kw.isPrefixOf (c :: rest) then
      1 + countOccsAux fuel kw ((c :: rest).drop (max kw.length 1))
    else
      countOccsAux fuel kw rest

/-- Occurrence count of a keyword in a text. -/
def countOccs (kw text : String) : Nat :=
  countOccsAux text.data.length kw.data text.data

/-- One category score: starting from `base`, add `matches * 0.2` for every
keyword of the category (the loop body `scores[category] += matches * 0.2`).
`lowerText` is the already lowercased ticket text. -/
def categoryScore (lowerText : String) (base : ℚ) (kws : List String) : ℚ :=
  kws.foldl (fun s kw => s + (countOccs kw lowerText : ℚ) * (2 / 10)) base

/-- The score table of `_stubClassify`: billing, tech and shipping start at 0,
the catch-all `other` starts at the base score 0.1. -/
def stubScores (text : String) : Category → ℚ
  | .billing => categoryScore (lowerString text) 0 keywordsBilling
  | .tech => categoryScore (lowerString text) 0 keywordsTech
  | .shipping => categoryScore (lowerString text) 0 keywordsShipping
  | .other => categoryScore (lowerString text) (1 / 10) keywordsOther

/-- The predicted category:
`Object.keys(scores).reduce((a, b) => scores[a] > scores[b] ? a : b)` with the
keys in declaration order billing, tech, shipping, other.  `reduce` seeds the
accumulator with the first key and folds the rest. -/
def stubPredicted (text : String) : Category :=
  [Category.tech, Category.shipping, Category.other].foldl
    (fun a b => if stubScores text a > stubScores text b then a else b)
    Category.billing

/-- `Math.round(q * 100) / 100`: JavaScript rounds half toward positive
infinity, i.e. `Math.round(x) = floor(x + 0.5)`. -/
def round100 (q : ℚ) : ℚ :=
  ((⌊q * 100 + 1 / 2⌋ : ℤ) : ℚ) / 100

/-- The four scores in key declaration order (`Object.values(scores)`). -/
def scoreList (text : String) : List ℚ :=
  [stubScores text .billing, stubScores text .tech,
   stubScores text .shipping, stubScores text .other]

/-- The confidence of `_stubClassify`:
sort the scores descending, then
`Math.round(Math.min(0.95, Math.max(0.3, (top - second) / (top + 0.1))) * 100) / 100`. -/
def stubConfidence (text : String) : ℚ :=
  let sorted := (scoreList text).insertionSort (fun a b => a ≥ b)
  let top := sorted.headD 0
  let second := (sorted.drop 1).headD 0
  round100 (min (95 / 100) (max (3 / 10) ((top - second) / (top + 1 / 10))))

/-- Result of `llmService.classify`. -/
structure Classification where
  predictedCategory : Category
  confidence : ℚ
  deriving DecidableEq, Repr

/-- `llmService._stubClassify`. -/
def stubClassify (text : String) : Classification :=
  { predictedCategory := stubPredicted text, confidence := stubConfidence text }

/-! ## Knowledge-base articles and the retriever (kbService) -/

/-- A knowledge-base article as the retriever sees it.  `score` is the phase-1
full-text relevance score delivered by the store (`article.score || 0`; the
keyword-search phase delivers no score, read as 0).  `relevanceScore` is
filled in by `_scoreArticles`. -/
structure Article where
  id : Nat
  title : String
  body : String
  tags : List String
  helpful : Nat
  notHelpful : Nat
  score : ℚ
  relevanceScore : ℚ
  deriving DecidableEq, Repr

/-- The stop-word list of `kbService._extractKeywords`. -/
def stopWords : List String :=
  ["the", "a", "an", "and", "or", "but", "in", "on", "at", "to", "for",
   "of", "with", "by", "is", "are", "was", "were", "be", "been", "being",
   "have", "has", "had", "do", "does", "did", "will", "would", "could",
   "should", "may", "might", "must", "can", "this", "that", "these", "those"]

/-- A JavaScript word character (the regex class of letters, digits and
underscore). -/
def isWordChar (c : Char) : Bool :=
  c.isAlphanum || c == '_'

/-- Maximal runs of word characters, in order.  This is what
`query.replace(nonWordNonSpace, " ").split(whitespaceRun)` yields on a
lowercased query, up to empty fragments that the length filter removes. -/
def wordRuns : List Char → List Char → List String
  | [], acc => if acc.isEmpty then [] else [String.mk acc.reverse]
  | c :: rest, acc =>
    if isWordChar c then wordRuns rest (c :: acc)
    else if acc.isEmpty then wordRuns rest []
    else String.mk acc.reverse :: wordRuns rest []

/-- `kbService._extractKeywords`: lowercase, strip punctuation, split, keep
words longer than two characters that are not stop words, cap at 10. -/
def extractKeywords (query : String) : List String :=
  ((wordRuns (lowerString query).data []).filter
    (fun w => w.length > 2 && !(stopWords.contains w))).take 10

/-- `kbService._countMatches`: total occurrence count of every keyword in the
lowercased text (an empty text trivially yields 0). -/
def countMatches (text : String) (kws : List String) : Nat :=
  kws.foldl (fun n kw => n + countOccs kw (lowerString text)) 0

/-- Tag matches: keywords that occur verbatim in the tag list (keywords are
already lowercase when this is called). -/
def tagMatches (tags : List String) (kws : List String) : Nat :=
  (kws.filter (fun k => tags.contains k)).length

/-- The composite score of `_scoreArticles` before rounding:
`score = (article.score || 0) + titleMatches * 3 + bodyMatches * 1 +
tagMatches * 2 + helpful * 0.1 - notHelpful * 0.05`. -/
def rawRelevance (a : Article) (kws : List String) : ℚ :=
  a.score + (countMatches a.title kws : ℚ) * 3 + (countMatches a.body kws : ℚ) * 1
    + (tagMatches a.tags kws : ℚ) * 2
    + (a.helpful : ℚ) * (1 / 10) - (a.notHelpful : ℚ) * (5 / 100)

/-- One scored article: `{...article, relevanceScore: Math.round(score * 100) / 100}`. -/
def scoreArticle (a : Article) (kws : List String) : Article :=
  { a with relevanceScore := round100 (rawRelevance a kws) }

/-- Comparison used by `.sort((a, b) => b.relevanceScore - a.relevanceScore)`:
descending relevance. -/
def relevanceGE (a b : Article) : Prop :=
  b.relevanceScore ≤ a.relevanceScore

instance : DecidableRel relevanceGE :=
  fun a b => inferInstanceAs (Decidable (b.relevanceScore ≤ a.relevanceScore))

instance : IsTotal Article relevanceGE :=
  ⟨fun a b => le_total b.relevanceScore a.relevanceScore⟩

instance : IsTrans Article relevanceGE :=
  ⟨fun _ _ _ hab hbc => le_trans hbc hab⟩

/-- `kbService._scoreArticles`: score every candidate, then sort descending by
the (rounded) relevance score. -/
def scoreArticles (articles : List Article) (query : String) : List Article :=
  ((articles.map (fun a => scoreArticle a (extractKeywords query)))).insertionSort relevanceGE

/-- `kbService.searchArticles` after the two store queries: phase 1 results
come with a text score; when they number fewer than `limit`, phase-2 keyword
results (which carry no text score, hence score 0) are appended after
dropping ids already present; the merged list is scored, ranked and cut to
`limit`. -/
def searchArticles (phase1 phase2 : List Article) (query : String) (limit : Nat) :
    List Article :=
  let merged :=
    if phase1.length < limit then
      phase1 ++
        ((phase2.filter
          (fun a => !((phase1.map (fun b => b.id)).contains a.id))).map
            (fun a => { a with score := 0 }))
    else phase1
  (scoreArticles merged query).take limit

/-- Modelled from the specification text, for comparison with the code: the
composite relevance score exactly as §4.2 words it, with no rounding:
`phase1Score + 3 x titleTermMatches + 1 x bodyTermMatches + 2 x tagTermMatches
+ 0.1 x helpfulCount - 0.05 x notHelpfulCount`. -/
def specCompositeScore (a : Article) (query : String) : ℚ :=
  a.score + 3 * (countMatches a.title (extractKeywords query) : ℚ)
    + 1 * (countMatches a.body (extractKeywords query) : ℚ)
    + 2 * (tagMatches a.tags (extractKeywords query) : ℚ)
    + (1 / 10) * (a.helpful : ℚ) - (5 / 100) * (a.notHelpful : ℚ)

/-! ## Draft composer (llmService._stubDraft) -/

/-- Result of `llmService.draft`. -/
structure Draft where
  draftReply : String
  citations : List Nat
  deriving DecidableEq, Repr

/-- The opening template per category. -/
def templateFor : Category → String
  | .billing => "Thank you for contacting us regarding your billing inquiry. I understand your concern and I\x27m here to help resolve this issue promptly."
  | .tech => "Thank you for reporting this technical issue. I apologize for any inconvenience this may have caused. Let me help you resolve this problem."
  | .shipping => "Thank you for contacting us about your shipment. I understand you\x27re looking for information about your delivery and I\x27m here to help."
  | .other => "Thank you for reaching out to our support team. I\x27m here to assist you with your inquiry."

/-- The numbered reference list of `_stubDraft`: one line per article among the
first three, in retriever order. -/
def numberedRefs (articles : List Article) : String :=
  String.join ((articles.take 3).enum.map
    (fun p => toString (p.1 + 1) ++ ". " ++ p.2.title ++ "\n"))

/-- `llmService._stubDraft`: category template, optional knowledge-base block,
fixed signature; citations are the ids of the first three articles. -/
def stubDraft (ticketText : String) (articles : List Article) : Draft :=
  let predictedCategory := (stubClassify ticketText).predictedCategory
  let base := templateFor predictedCategory
  let withRefs :=
    if articles.length > 0 then
      base ++ "\n\nBased on our knowledge base, here are some relevant resources that may help:\n\n"
        ++ numberedRefs articles
        ++ "\nPlease review these resources, and if you need further assistance, don\x27t hesitate to reply to this ticket."
    else base
  { draftReply := withRefs ++ "\n\nBest regards,\nSupport Team",
    citations := (articles.take 3).map (fun a => a.id) }

/-! ## Data model of the orchestrator (agentService) -/

/-- The triage configuration document (models/Config.js schema).  Every field
carries a schema default, so the per-category thresholds are always present on
the live document. -/
structure TriageConfig where
  autoCloseEnabled : Bool
  confidenceThreshold : ℚ
  categoryThresholds : Category → ℚ
  slaHours : Nat

/-- Schema defaults of `categoryThresholds`. -/
def defaultCategoryThresholds : Category → ℚ
  | .billing => 75 / 100
  | .tech => 80 / 100
  | .shipping => 70 / 100
  | .other => 85 / 100

/-- The configuration document created by `_getConfig` when none exists:
all schema defaults. -/
def defaultConfig : TriageConfig :=
  { autoCloseEnabled := true
    confidenceThreshold := 78 / 100
    categoryThresholds := defaultCategoryThresholds
    slaHours := 24 }

/-- One ticket reply (models/Ticket.js replySchema). -/
structure Reply where
  author : Nat
  content : String
  isInternal : Bool
  deriving DecidableEq, Repr

/-- A ticket document, restricted to the fields the pipeline reads or writes. -/
structure Ticket where
  id : Nat
  title : String
  description : String
  category : Category
  status : TStatus
  assignee : Option Nat
  agentSuggestionId : Option Nat
  replies : List Reply
  resolvedAt : Option Nat
  deriving DecidableEq, Repr

/-- An agent suggestion document (models/AgentSuggestion.js; the schema file is
outside the sources, its shape is taken from how agentService constructs and
mutates it: `accepted` starts undecided). -/
structure Suggestion where
  id : Nat
  ticketId : Nat
  traceId : String
  predictedCategory : Category
  articleIds : List Nat
  draftReply : String
  confidence : ℚ
  autoClosed : Bool
  accepted : Option Bool
  acceptedBy : Option Nat
  acceptedAt : Option Nat
  deriving DecidableEq, Repr

/-- Audit action names used by the pipeline (models/AuditLog.js enum,
restricted to the actions agentService emits). -/
inductive AuditAction
  | TRIAGE_STARTED
  | AGENT_CLASSIFIED
  | KB_RETRIEVED
  | DRAFT_GENERATED
  | AUTO_CLOSED
  | ASSIGNED_TO_HUMAN
  | REPLY_SENT
  | TRIAGE_FAILED
  | SUGGESTION_ACCEPTED
  | SUGGESTION_REJECTED
  deriving DecidableEq, Repr

/-- A structured metadata value. -/
inductive MetaVal
  | s (v : String)
  | q (v : ℚ)
  | n (v : Nat)
  | b (v : Bool)
  | ids (v : List Nat)
  deriving DecidableEq, Repr

/-- Audit event metadata: the JavaScript object, as ordered key-value pairs. -/
abbrev EventMeta := List (String × MetaVal)

/-- One audit log entry (`_logAuditEvent`). -/
structure AuditEvent where
  ticketId : Nat
  traceId : String
  actor : String
  action : AuditAction
  meta : EventMeta
  deriving DecidableEq, Repr

/-- An active user with role agent or admin, together with the count of
tickets currently assigned to them in status triaged or waiting_human (the
workload that `_findAvailableAgent` computes from the ticket store). -/
structure Agent where
  id : Nat
  name : String
  ticketCount : Nat
  deriving DecidableEq, Repr

/-- The persistent state one triage run touches: the ticket under triage, the
suggestion and audit collections, the live configuration document, the active
agents, the lazily provisioned system user, the identifier for the next
suggestion document and the clock reading used for date stamps. -/
structure DB where
  ticket : Ticket
  suggestions : List Suggestion
  audit : List AuditEvent
  config : TriageConfig
  agents : List Agent
  systemUserId : Nat
  nextSuggestionId : Nat
  now : Nat

/-- `_logAuditEvent`: append-only insertion into the audit collection. -/
def logEvent (db : DB) (ticketId : Nat) (traceId actor : String)
    (action : AuditAction) (meta : EventMeta) : DB :=
  { db with audit := db.audit ++
      [{ ticketId := ticketId, traceId := traceId, actor := actor,
         action := action, meta := meta }] }

/-- JavaScript `s.substring(0, n)` for the ASCII strings at hand (used only
inside audit metadata). -/
def strTake (s : String) (n : Nat) : String :=
  String.mk (s.data.take n)

/-- Ascending workload order used by
`agentWorkloads.sort((a, b) => a.ticketCount - b.ticketCount)`. -/
def workloadLE (a b : Agent) : Prop :=
  a.ticketCount ≤ b.ticketCount

instance : DecidableRel workloadLE :=
  fun a b => inferInstanceAs (Decidable (a.ticketCount ≤ b.ticketCount))

/-- `_findAvailableAgent`: null when no active agent exists, otherwise the
agent with the fewest triaged or waiting_human tickets (stable sort, so ties
keep collection order). -/
def findAvailableAgent (agents : List Agent) : Option Agent :=
  match agents.insertionSort workloadLE with
  | [] => none
  | a :: _ => some a

/-- Outcome of the decision step handed back to the caller. -/
structure DecisionResult where
  action : String
  suggestion : Suggestion
  assignee : Option Agent
  deriving Repr

/-- `agentService._makeDecision`: create the suggestion, compare the
classifier confidence against the global `confidenceThreshold`, then either
auto-close (reply, resolve, stamp, audit `AUTO_CLOSED`) or assign to a human
(reply, waiting_human, optional assignee, audit `ASSIGNED_TO_HUMAN` and
`REPLY_SENT`). -/
def makeDecision (db : DB) (traceId : String) (classification : Classification)
    (articles : List Article) (draft : Draft) : DB × DecisionResult :=
  let config := db.config
  let ticket := db.ticket
  let suggestion : Suggestion :=
    { id := db.nextSuggestionId
      ticketId := ticket.id
      traceId := traceId
      predictedCategory := classification.predictedCategory
      articleIds := articles.map (fun a => a.id)
      draftReply := draft.draftReply
      confidence := classification.confidence
      autoClosed := false
      accepted := none
      acceptedBy := none
      acceptedAt := none }
  if config.autoCloseEnabled = true ∧ classification.confidence ≥ config.confidenceThreshold then
    let suggestion := { suggestion with autoClosed := true }
    let db1 := { db with
      suggestions := db.suggestions ++ [suggestion]
      nextSuggestionId := db.nextSuggestionId + 1 }
    let ticket1 := { ticket with
      replies := ticket.replies ++
        [{ author := db.systemUserId, content := draft.draftReply, isInternal := false }]
      status := TStatus.resolved
      agentSuggestionId := some suggestion.id
      resolvedAt := some db.now }
    let db2 := { db1 with ticket := ticket1 }
    let db3 := logEvent db2 ticket.id traceId "system" .AUTO_CLOSED
      [("confidence", .q classification.confidence),
       ("threshold", .q config.confidenceThreshold),
       ("suggestionId", .n suggestion.id)]
    (db3, { action := "auto_closed", suggestion := suggestion, assignee := none })
  else
    let db1 := { db with
      suggestions := db.suggestions ++ [suggestion]
      nextSuggestionId := db.nextSuggestionId + 1 }
    let ticket1 := { ticket with
      replies := ticket.replies ++
        [{ author := db.systemUserId, content := draft.draftReply, isInternal := false }]
      status := TStatus.waiting_human
      agentSuggestionId := some suggestion.id }
    let agentOpt := findAvailableAgent db.agents
    let ticket2 :=
      match agentOpt with
      | some ag => { ticket1 with assignee := some ag.id }
      | none => ticket1
    let db2 :=
      match agentOpt with
      | some ag => logEvent db1 ticket.id traceId "system" .ASSIGNED_TO_HUMAN
          [("assigneeId", .n ag.id), ("assigneeName", .s ag.name),
           ("reason", .s "low_confidence"), ("confidence", .q classification.confidence)]
      | none => logEvent db1 ticket.id traceId "system" .ASSIGNED_TO_HUMAN
          [("reason", .s "no_agent_available"), ("confidence", .q classification.confidence)]
    let db3 := { db2 with ticket := ticket2 }
    let db4 := logEvent db3 ticket.id traceId "system" .REPLY_SENT
      [("replyContent", .s (strTake draft.draftReply 100)),
       ("isAutoReply", .b true), ("confidence", .q classification.confidence)]
    (db4, { action := "assigned_to_human", suggestion := suggestion, assignee := agentOpt })

/-- What a successful run returns to the caller. -/
structure TriageResult where
  classification : Classification
  articles : List Article
  draft : Draft
  decision : DecisionResult
  deriving Repr

/-- `agentService.triageTicket` for an existing ticket: plan (audit
`TRIAGE_STARTED`), then classify, retrieve and draft - each an external call
whose outcome is passed in as an `Except` - followed by the decision step.
Each successful step logs its audit event; the classification step also
persists the predicted category onto the ticket when it differs from the
stored one with confidence above 0.7.  Any step failure logs a single
`TRIAGE_FAILED` event with the error message and rethrows. -/
def triageTicket (db : DB) (traceId : String)
    (classifyR : Except String Classification)
    (retrieveR : Except String (List Article))
    (draftR : Except String Draft) : DB × Except String TriageResult :=
  let t0 := db.ticket
  let db0 := logEvent db t0.id traceId "system" .TRIAGE_STARTED
    [("ticketTitle", .s t0.title), ("category", .s t0.category.name)]
  match classifyR with
  | .error e =>
    (logEvent db0 t0.id traceId "system" .TRIAGE_FAILED [("error", .s e)], .error e)
  | .ok cl =>
    let db1 := logEvent db0 t0.id traceId "system" .AGENT_CLASSIFIED
      [("originalCategory", .s t0.category.name),
       ("predictedCategory", .s cl.predictedCategory.name),
       ("confidence", .q cl.confidence)]
    let db2 :=
      if cl.predictedCategory ≠ t0.category ∧ cl.confidence > 7 / 10 then
        { db1 with ticket := { db1.ticket with category := cl.predictedCategory } }
      else db1
    match retrieveR with
    | .error e =>
      (logEvent db2 t0.id traceId "system" .TRIAGE_FAILED [("error", .s e)], .error e)
    | .ok articles =>
      let db3 := logEvent db2 t0.id traceId "system" .KB_RETRIEVED
        [("query", .s (strTake (t0.title ++ " " ++ t0.description) 100)),
         ("articlesFound", .n articles.length),
         ("articleIds", .ids (articles.map (fun a => a.id))),
         ("category", .s cl.predictedCategory.name)]
      match draftR with
      | .error e =>
        (logEvent db3 t0.id traceId "system" .TRIAGE_FAILED [("error", .s e)], .error e)
      | .ok draft =>
        let db4 := logEvent db3 t0.id traceId "system" .DRAFT_GENERATED
          [("draftLength", .n draft.draftReply.length),
           ("citationsCount", .n draft.citations.length),
           ("citations", .ids draft.citations)]
        let step := makeDecision db4 traceId cl articles draft
        (step.1, .ok { classification := cl, articles := articles,
                       draft := draft, decision := step.2 })

/-- `agentService.rejectSuggestion`: mark rejected (accepted = false), record
the acting agent and time, persist, and audit `SUGGESTION_REJECTED` with the
reason; the ticket is never touched. -/
def rejectSuggestion (db : DB) (suggestionId actorId : Nat) (reason : String) :
    Except String (DB × Suggestion) :=
  match db.suggestions.find? (fun s => s.id == suggestionId) with
  | none => .error "Suggestion not found"
  | some s =>
    let s1 := { s with
      accepted := some false
      acceptedBy := some actorId
      acceptedAt := some db.now }
    let db1 := { db with
      suggestions := db.suggestions.map (fun x => if x.id == suggestionId then s1 else x) }
    let db2 := logEvent db1 s.ticketId s.traceId "agent" .SUGGESTION_REJECTED
      [("suggestionId", .n suggestionId), ("agentId", .n actorId), ("reason", .s reason)]
    .ok (db2, s1)

/-- Modelled from the specification text (§4.4), for comparison with the code:
"let t = per-category threshold if configured, else the global threshold from
TriageConfig".  On the live document the per-category thresholds are always
configured (schema defaults), so the spec threshold is the per-category one. -/
def specDecisionThreshold (config : TriageConfig) (cat : Category) : ℚ :=
  config.categoryThresholds cat

/-! ## Helper lemmas -/

/-- Rounding to hundredths keeps a rational between two hundredth-aligned
bounds. -/
theorem round100_le_round100_of_between {q : ℚ} {lo hi : ℤ}
    (h1 : (lo : ℚ) / 100 ≤ q) (h2 : q ≤ (hi : ℚ) / 100) :
    (lo : ℚ) / 100 ≤ round100 q ∧ round100 q ≤ (hi : ℚ) / 100 := by
  have hfl : lo ≤ ⌊q * 100 + 1 / 2⌋ := by
    apply Int.le_floor.mpr
    linarith
  have hfu : ⌊q * 100 + 1 / 2⌋ ≤ hi := by
    have hlt : ⌊q * 100 + 1 / 2⌋ < hi + 1 := by
      apply Int.floor_lt.mpr
      push_cast
      linarith
    omega
  have hfl' : (lo : ℚ) ≤ (⌊q * 100 + 1 / 2⌋ : ℚ) := by exact_mod_cast hfl
  have hfu' : ((⌊q * 100 + 1 / 2⌋ : ℤ) : ℚ) ≤ (hi : ℚ) := by exact_mod_cast hfu
  unfold round100
  constructor <;> [linarith; linarith]

/-- The score accumulated by `categoryScore` is the base plus two tenths per
keyword occurrence. -/
theorem categoryScore_eq (t : String) (base : ℚ) (kws : List String) :
    categoryScore t base kws =
      base + (((kws.map (fun kw => countOccs kw t)).sum : ℕ) : ℚ) * (2 / 10) := by
  induction kws generalizing base with
  | nil => simp [categoryScore]
  | cons k ks ih =>
    have hstep : categoryScore t base (k :: ks) =
        categoryScore t (base + (countOccs k t : ℚ) * (2 / 10)) ks := rfl
    rw [hstep, ih, List.map_cons, List.sum_cons]
    push_cast
    ring

/-- The `reduce` over the score table returns a category of maximal score, and
strictly beats every category declared after it: on ties the accumulator is
replaced, so the last declared maximal category wins. -/
theorem reduceScores_lastArgmax (s : Category → ℚ) :
    (∀ c, s c ≤ s ([Category.tech, Category.shipping, Category.other].foldl
        (fun a b => if s a > s b then a else b) Category.billing)) ∧
    (∀ c, declIndex ([Category.tech, Category.shipping, Category.other].foldl
          (fun a b => if s a > s b then a else b) Category.billing) < declIndex c →
      s c < s ([Category.tech, Category.shipping, Category.other].foldl
        (fun a b => if s a > s b then a else b) Category.billing)) := by
  simp only [List.foldl]
  by_cases h1 : s Category.billing > s Category.tech
  · rw [if_pos h1]
    by_cases h2 : s Category.billing > s Category.shipping
    · rw [if_pos h2]
      by_cases h3 : s Category.billing > s Category.other
      · rw [if_pos h3]
        refine ⟨fun c => ?_, fun c hc => ?_⟩ <;> cases c <;>
          simp only [declIndex] at * <;> first | omega | linarith
      · rw [if_neg h3]
        refine ⟨fun c => ?_, fun c hc => ?_⟩ <;> cases c <;>
          simp only [declIndex] at * <;> first | omega | linarith
    · rw [if_neg h2]
      by_cases h3 : s Category.shipping > s Category.other
      · rw [if_pos h3]
        refine ⟨fun c => ?_, fun c hc => ?_⟩ <;> cases c <;>
          simp only [declIndex] at * <;> first | omega | linarith
      · rw [if_neg h3]
        refine ⟨fun c => ?_, fun c hc => ?_⟩ <;> cases c <;>
          simp only [declIndex] at * <;> first | omega | linarith
  · rw [if_neg h1]
    by_cases h2 : s Category.tech > s Category.shipping
    · rw [if_pos h2]
      by_cases h3 : s Category.tech > s Category.other
      · rw [if_pos h3]
        refine ⟨fun c => ?_, fun c hc => ?_⟩ <;> cases c <;>
          simp only [declIndex] at * <;> first | omega | linarith
      · rw [if_neg h3]
        refine ⟨fun c => ?_, fun c hc => ?_⟩ <;> cases c <;>
          simp only [declIndex] at * <;> first | omega | linarith
    · rw [if_neg h2]
      by_cases h3 : s Category.shipping > s Category.other
      · rw [if_pos h3]
        refine ⟨fun c => ?_, fun c hc => ?_⟩ <;> cases c <;>
          simp only [declIndex] at * <;> first | omega | linarith
      · rw [if_neg h3]
        refine ⟨fun c => ?_, fun c hc => ?_⟩ <;> cases c <;>
          simp only [declIndex] at * <;> first | omega | linarith

/-! ## Claim theorems -/

/-- Claim C6: for every input text, including the empty one, the confidence
returned by the classifier lies between 0.3 and 0.95 inclusive; in particular
it is never 0 and never 1. -/
theorem C6_confidence_bounds (text : String) :
    3 / 10 ≤ (stubClassify text).confidence ∧
      (stubClassify text).confidence ≤ 95 / 100 ∧
      (stubClassify text).confidence ≠ 0 ∧
      (stubClassify text).confidence ≠ 1 := by
  have hx : ∃ r : ℚ,
      (stubClassify text).confidence = round100 (min (95 / 100) (max (3 / 10) r)) :=
    ⟨_, rfl⟩
  rcases hx with ⟨r, hr⟩
  have h1 : ((30 : ℤ) : ℚ) / 100 ≤ min (95 / 100) (max (3 / 10) r) := by
    refine le_min (by norm_num) (le_trans (by norm_num) (le_max_left (3 / 10) r))
  have h2 : min (95 / 100) (max (3 / 10) r) ≤ ((95 : ℤ) : ℚ) / 100 := by
    refine le_trans (min_le_left _ _) (by norm_num)
  have hb := round100_le_round100_of_between h1 h2
  rw [hr]
  push_cast at hb
  refine ⟨by linarith [hb.1], by linarith [hb.2], ?_, ?_⟩
  · intro h0
    rw [h0] at hb
    norm_num at hb
  · intro h1'
    rw [h1'] at hb
    norm_num at hb

/-- Score table on the text "refund error": one billing keyword and one tech
keyword occur, no shipping keyword, and `other` keeps its base score. -/
theorem stubScores_refund_error :
    stubScores "refund error" Category.billing = 1 / 5 ∧
    stubScores "refund error" Category.tech = 1 / 5 ∧
    stubScores "refund error" Category.shipping = 0 ∧
    stubScores "refund error" Category.other = 1 / 10 := by
  have hb : stubScores "refund error" Category.billing =
      categoryScore (lowerString "refund error") 0 keywordsBilling := rfl
  have ht : stubScores "refund error" Category.tech =
      categoryScore (lowerString "refund error") 0 keywordsTech := rfl
  have hs : stubScores "refund error" Category.shipping =
      categoryScore (lowerString "refund error") 0 keywordsShipping := rfl
  have ho : stubScores "refund error" Category.other =
      categoryScore (lowerString "refund error") (1 / 10) keywordsOther := rfl
  have cb : ((keywordsBilling.map
      (fun kw => countOccs kw (lowerString "refund error"))).sum) = 1 := rfl
  have ct : ((keywordsTech.map
      (fun kw => countOccs kw (lowerString "refund error"))).sum) = 1 := rfl
  have cs : ((keywordsShipping.map
      (fun kw => countOccs kw (lowerString "refund error"))).sum) = 0 := rfl
  have co : ((keywordsOther.map
      (fun kw => countOccs kw (lowerString "refund error"))).sum) = 0 := rfl
  refine ⟨?_, ?_, ?_, ?_⟩
  · rw [hb, categoryScore_eq, cb]; norm_num
  · rw [ht, categoryScore_eq, ct]; norm_num
  · rw [hs, categoryScore_eq, cs]; norm_num
  · rw [ho, categoryScore_eq, co]; norm_num

/-- Claim C5 (amended): the classifier predicts a category of maximal keyword
score, but ties for the highest score are broken in favour of the LAST
declared category in the priority order billing, tech, shipping, other (the
reduce replaces the accumulator on equal scores), not the first declared. -/
theorem C5_predicts_max_last_declared_wins (text : String) :
    (∀ c : Category, stubScores text c ≤ stubScores text (stubPredicted text)) ∧
    (∀ c : Category, declIndex (stubPredicted text) < declIndex c →
      stubScores text c < stubScores text (stubPredicted text)) := by
  have h := reduceScores_lastArgmax (stubScores text)
  simpa only [stubPredicted] using h

/-- Claim C5 counterexample: on the ticket text "refund error" the categories
billing and tech tie for the highest score and billing is declared first, so
under the claim the prediction would be billing; the classifier predicts tech. -/
theorem C5_counterexample :
    stubScores "refund error" Category.billing =
      stubScores "refund error" Category.tech ∧
    (∀ c : Category,
      stubScores "refund error" c ≤ stubScores "refund error" Category.billing) ∧
    declIndex Category.billing < declIndex Category.tech ∧
    stubPredicted "refund error" ≠ Category.billing := by
  obtain ⟨hb, ht, hs, ho⟩ := stubScores_refund_error
  have hpred : stubPredicted "refund error" = Category.tech := by
    norm_num [stubPredicted, List.foldl, hb, ht, hs, ho]
  refine ⟨by rw [hb, ht], ?_, by simp [declIndex], by rw [hpred]; decide⟩
  intro c
  cases c <;> norm_num [hb, ht, hs, ho]

/-- Claim C9: every identifier in the citation list of a composed draft is the
identifier of an article in the list handed to the composer, and there are at
most three citations (the retrieval limit). -/
theorem C9_citations_subset (ticketText : String) (articles : List Article) :
    (∀ c ∈ (stubDraft ticketText articles).citations,
      c ∈ articles.map (fun a => a.id)) ∧
    (stubDraft ticketText articles).citations.length ≤ 3 := by
  constructor
  · intro c hc
    simp only [stubDraft] at hc
    rcases List.mem_map.mp hc with ⟨a, ha, rfl⟩
    exact List.mem_map_of_mem _ (List.take_subset 3 articles ha)
  · simp only [stubDraft, List.length_map]
    exact List.length_take_le 3 articles

/-! ## Decision step: claims C1 and C2 -/

/-- Claim C1 (amended): the threshold compared against the classifier
confidence at the decision step is always the global
`TriageConfig.confidenceThreshold`; the configured per-category thresholds are
never consulted, so every observable outcome of the decision step is invariant
under them. -/
theorem C1_threshold_always_global (db : DB) (trace : String) (cl : Classification)
    (articles : List Article) (draft : Draft) (ct : Category → ℚ) :
    ((makeDecision db trace cl articles draft).2.action = "auto_closed" ↔
      db.config.autoCloseEnabled = true ∧
        cl.confidence ≥ db.config.confidenceThreshold) ∧
    (makeDecision { db with config := { db.config with categoryThresholds := ct } }
        trace cl articles draft).2 =
      (makeDecision db trace cl articles draft).2 ∧
    (makeDecision { db with config := { db.config with categoryThresholds := ct } }
        trace cl articles draft).1.ticket =
      (makeDecision db trace cl articles draft).1.ticket ∧
    (makeDecision { db with config := { db.config with categoryThresholds := ct } }
        trace cl articles draft).1.suggestions =
      (makeDecision db trace cl articles draft).1.suggestions ∧
    (makeDecision { db with config := { db.config with categoryThresholds := ct } }
        trace cl articles draft).1.audit =
      (makeDecision db trace cl articles draft).1.audit := by
  constructor
  · simp only [makeDecision, logEvent]
    split_ifs with h
    · exact ⟨fun _ => h, fun _ => rfl⟩
    · constructor
      · intro hcontra
        exact absurd (show "assigned_to_human" = "auto_closed" from hcontra) (by decide)
      · intro hcond
        exact absurd hcond h
  · simp only [makeDecision, logEvent]
    split_ifs with h
    · exact ⟨rfl, rfl, rfl, rfl⟩
    · rcases hA : findAvailableAgent db.agents with _ | ag <;> simp [hA]

/-- Ticket fixture for concrete decision runs. -/
def cexTicket : Ticket :=
  { id := 1, title := "package lost", description := "where is it",
    category := Category.shipping, status := TStatus.open_, assignee := none,
    agentSuggestionId := none, replies := [], resolvedAt := none }

/-- Database fixture: schema-default configuration, no agents, empty
collections. -/
def cexDB : DB :=
  { ticket := cexTicket, suggestions := [], audit := [], config := defaultConfig,
    agents := [], systemUserId := 50, nextSuggestionId := 7, now := 1000 }

/-- A shipping classification at confidence 0.72: above the shipping
per-category threshold (0.70), below the global threshold (0.78). -/
def cexClassification : Classification :=
  { predictedCategory := Category.shipping, confidence := 72 / 100 }

/-- Draft fixture. -/
def cexDraft : Draft :=
  { draftReply := "reply text", citations := [] }

/-- Claim C1 counterexample: with the schema-default configuration the
per-category threshold of the predicted category (shipping, 0.70) is met by a
confidence of 0.72 and auto-close is enabled, so under the claim the decision
would be auto_closed; the code compares against the global threshold 0.78 and
assigns to a human instead. -/
theorem C1_counterexample :
    cexDB.config.autoCloseEnabled = true ∧
    cexClassification.confidence ≥
      specDecisionThreshold cexDB.config cexClassification.predictedCategory ∧
    (makeDecision cexDB "trace-1" cexClassification [] cexDraft).2.action ≠
      "auto_closed" := by
  refine ⟨rfl, ?_, ?_⟩
  · norm_num [cexDB, cexClassification, defaultConfig, defaultCategoryThresholds,
      specDecisionThreshold]
  · have hcond : ¬(cexDB.config.autoCloseEnabled = true ∧
        cexClassification.confidence ≥ cexDB.config.confidenceThreshold) := by
      norm_num [cexDB, cexClassification, defaultConfig]
    simp only [makeDecision, logEvent, if_neg hcond]
    decide

/-- Claim C2: with auto-close enabled, the decision is auto_closed exactly when
the confidence reaches the global threshold (boundary included); and an
auto-closed run appends exactly one externally visible reply carrying the
draft, resolves the ticket with a stamped resolution time, and persists the
suggestion with autoClosed = true. -/
theorem C2_autoclose_boundary_and_effects (db : DB) (trace : String)
    (cl : Classification) (articles : List Article) (draft : Draft)
    (henabled : db.config.autoCloseEnabled = true) :
    ((makeDecision db trace cl articles draft).2.action = "auto_closed" ↔
      cl.confidence ≥ db.config.confidenceThreshold) ∧
    (cl.confidence ≥ db.config.confidenceThreshold →
      (makeDecision db trace cl articles draft).1.ticket.replies =
        db.ticket.replies ++
          [{ author := db.systemUserId, content := draft.draftReply,
             isInternal := false }] ∧
      (makeDecision db trace cl articles draft).1.ticket.status =
        TStatus.resolved ∧
      (makeDecision db trace cl articles draft).1.ticket.resolvedAt =
        some db.now ∧
      (makeDecision db trace cl articles draft).1.suggestions =
        db.suggestions ++ [(makeDecision db trace cl articles draft).2.suggestion] ∧
      (makeDecision db trace cl articles draft).2.suggestion.autoClosed = true) := by
  by_cases hc : cl.confidence ≥ db.config.confidenceThreshold
  · have hcond : db.config.autoCloseEnabled = true ∧
        cl.confidence ≥ db.config.confidenceThreshold := ⟨henabled, hc⟩
    refine ⟨⟨fun _ => hc, fun _ => ?_⟩, fun _ => ⟨?_, ?_, ?_, ?_, ?_⟩⟩ <;>
      simp only [makeDecision, logEvent, if_pos hcond]
  · have hcond : ¬(db.config.autoCloseEnabled = true ∧
        cl.confidence ≥ db.config.confidenceThreshold) := fun hcontra => hc hcontra.2
    simp only [makeDecision, logEvent, if_neg hcond]
    refine ⟨⟨fun hcontra =>
        absurd (show "assigned_to_human" = "auto_closed" from hcontra) (by decide),
      fun hcond2 => absurd hcond2 hc⟩,
      fun hcond2 => absurd hcond2 hc⟩

/-- Witness for claim C2 at a concrete boundary input: confidence exactly
equal to the schema-default global threshold 0.78 auto-closes. -/
theorem C2_witness :
    (makeDecision cexDB "trace-1"
      { predictedCategory := Category.shipping, confidence := 78 / 100 }
      [] cexDraft).2.action = "auto_closed" :=
  (C2_autoclose_boundary_and_effects cexDB "trace-1"
    { predictedCategory := Category.shipping, confidence := 78 / 100 }
    [] cexDraft rfl).1.mpr (by norm_num [cexDB, defaultConfig])

/-! ## Whole-run claims C3, C4 and C7 -/

/-- The decision step never rewrites the ticket category. -/
theorem makeDecision_keeps_category (db : DB) (trace : String)
    (cl : Classification) (articles : List Article) (draft : Draft) :
    (makeDecision db trace cl articles draft).1.ticket.category =
      db.ticket.category := by
  simp only [makeDecision, logEvent]
  split_ifs
  · rfl
  · rcases hA : findAvailableAgent db.agents with _ | ag <;> simp [hA]

/-- The audit events the decision step appends: either a single `AUTO_CLOSED`
event, or an `ASSIGNED_TO_HUMAN` event followed by `REPLY_SENT`; all carry the
run trace and the ticket id. -/
theorem makeDecision_audit_shape (db : DB) (trace : String)
    (cl : Classification) (articles : List Article) (draft : Draft) :
    ∃ tail : List AuditEvent,
      (makeDecision db trace cl articles draft).1.audit = db.audit ++ tail ∧
      (tail.map (fun ev => ev.action) = [AuditAction.AUTO_CLOSED] ∨
        tail.map (fun ev => ev.action) =
          [AuditAction.ASSIGNED_TO_HUMAN, AuditAction.REPLY_SENT]) ∧
      ∀ ev ∈ tail, ev.traceId = trace := by
  simp only [makeDecision, logEvent]
  split_ifs
  · refine
      ⟨[{ ticketId := db.ticket.id, traceId := trace, actor := "system",
          action := AuditAction.AUTO_CLOSED,
          meta := [("confidence", MetaVal.q cl.confidence),
                   ("threshold", MetaVal.q db.config.confidenceThreshold),
                   ("suggestionId", MetaVal.n db.nextSuggestionId)] }],
        by simp, Or.inl rfl, ?_⟩
    intro ev hev
    simp only [List.mem_singleton] at hev
    rw [hev]
  · rcases hA : findAvailableAgent db.agents with _ | ag
    · simp only [hA]
      refine
        ⟨[{ ticketId := db.ticket.id, traceId := trace, actor := "system",
            action := AuditAction.ASSIGNED_TO_HUMAN,
            meta := [("reason", MetaVal.s "no_agent_available"),
                     ("confidence", MetaVal.q cl.confidence)] },
          { ticketId := db.ticket.id, traceId := trace, actor := "system",
            action := AuditAction.REPLY_SENT,
            meta := [("replyContent", MetaVal.s (strTake draft.draftReply 100)),
                     ("isAutoReply", MetaVal.b true),
                     ("confidence", MetaVal.q cl.confidence)] }],
          by simp, Or.inr rfl, ?_⟩
      intro ev hev
      simp only [List.mem_cons, List.mem_singleton, List.not_mem_nil, or_false] at hev
      rcases hev with hev | hev
      · rw [hev]
      · rw [hev]
    · simp only [hA]
      refine
        ⟨[{ ticketId := db.ticket.id, traceId := trace, actor := "system",
            action := AuditAction.ASSIGNED_TO_HUMAN,
            meta := [("assigneeId", MetaVal.n ag.id), ("assigneeName", MetaVal.s ag.name),
                     ("reason", MetaVal.s "low_confidence"),
                     ("confidence", MetaVal.q cl.confidence)] },
          { ticketId := db.ticket.id, traceId := trace, actor := "system",
            action := AuditAction.REPLY_SENT,
            meta := [("replyContent", MetaVal.s (strTake draft.draftReply 100)),
                     ("isAutoReply", MetaVal.b true),
                     ("confidence", MetaVal.q cl.confidence)] }],
          by simp, Or.inr rfl, ?_⟩
      intro ev hev
      simp only [List.mem_cons, List.mem_singleton, List.not_mem_nil, or_false] at hev
      rcases hev with hev | hev
      · rw [hev]
      · rw [hev]

/-- Claim C7: a successful run appends, all under the single trace identifier
of the run, at least one audit event each for start, classification, retrieval
and draft, plus exactly one of AUTO_CLOSED or ASSIGNED_TO_HUMAN, in that
relative order. -/
theorem C7_audit_completeness (db : DB) (trace : String) (cl : Classification)
    (articles : List Article) (draft : Draft) :
    ∃ decisionAct : AuditAction,
      (decisionAct = AuditAction.AUTO_CLOSED ∨
        decisionAct = AuditAction.ASSIGNED_TO_HUMAN) ∧
      List.Sublist
        [AuditAction.TRIAGE_STARTED, AuditAction.AGENT_CLASSIFIED,
         AuditAction.KB_RETRIEVED, AuditAction.DRAFT_GENERATED, decisionAct]
        (((triageTicket db trace (.ok cl) (.ok articles) (.ok draft)).1.audit.drop
            db.audit.length).map (fun ev => ev.action)) ∧
      (((triageTicket db trace (.ok cl) (.ok articles) (.ok draft)).1.audit.drop
            db.audit.length).map (fun ev => ev.action)).countP
          (fun a => decide (a = AuditAction.AUTO_CLOSED)) +
        (((triageTicket db trace (.ok cl) (.ok articles) (.ok draft)).1.audit.drop
            db.audit.length).map (fun ev => ev.action)).countP
          (fun a => decide (a = AuditAction.ASSIGNED_TO_HUMAN)) = 1 ∧
      ∀ ev ∈ (triageTicket db trace (.ok cl) (.ok articles)
          (.ok draft)).1.audit.drop db.audit.length, ev.traceId = trace := by
  simp only [triageTicket, makeDecision, logEvent]
  split_ifs with hmut hclose hclose <;>
    [skip; (rcases hA : findAvailableAgent db.agents with _ | ag <;> simp only [hA]);
     skip; (rcases hA : findAvailableAgent db.agents with _ | ag <;> simp only [hA])] <;>
  · first
      | exact ⟨AuditAction.AUTO_CLOSED, Or.inl rfl, by
          simp only [List.append_assoc, List.drop_left, List.map_append, List.map_cons,
            List.map_nil]
          decide, by
          simp only [List.append_assoc, List.drop_left, List.map_append, List.map_cons,
            List.map_nil]
          decide, by
          simp only [List.append_assoc, List.drop_left]
          intro ev hev
          simp only [List.mem_append, List.mem_cons, List.mem_singleton,
            List.not_mem_nil, or_false] at hev
          rcases hev with h | h | h | h | h <;> rw [h]⟩
      | exact ⟨AuditAction.ASSIGNED_TO_HUMAN, Or.inr rfl, by
          simp only [List.append_assoc, List.drop_left, List.map_append, List.map_cons,
            List.map_nil]
          decide, by
          simp only [List.append_assoc, List.drop_left, List.map_append, List.map_cons,
            List.map_nil]
          decide, by
          simp only [List.append_assoc, List.drop_left]
          intro ev hev
          simp only [List.mem_append, List.mem_cons, List.mem_singleton,
            List.not_mem_nil, or_false] at hev
          rcases hev with h | h | h | h | h | h <;> rw [h]⟩

/-- Claim C4: when the classifier succeeds with a predicted category different
from the stored one at confidence strictly above 0.7, the predicted category is
persisted onto the ticket during the classification step, so it is still there
at the end of the run whatever happens to retrieval, drafting or the decision -
including when a later step fails. -/
theorem C4_category_persisted (db : DB) (trace : String) (cl : Classification)
    (retrieveR : Except String (List Article)) (draftR : Except String Draft)
    (hdiff : cl.predictedCategory ≠ db.ticket.category)
    (hconf : cl.confidence > 7 / 10) :
    (triageTicket db trace (.ok cl) retrieveR draftR).1.ticket.category =
      cl.predictedCategory := by
  have hcond : cl.predictedCategory ≠ db.ticket.category ∧ cl.confidence > 7 / 10 :=
    ⟨hdiff, hconf⟩
  rcases retrieveR with e2 | articles
  · simp only [triageTicket, logEvent]
    rw [if_pos hcond]
  · rcases draftR with e3 | draft
    · simp only [triageTicket, logEvent]
      rw [if_pos hcond]
    · simp only [triageTicket, logEvent]
      rw [if_pos hcond, makeDecision_keeps_category]

/-- Claim C3: a run in which classification, retrieval or drafting fails
aborts at once: no suggestion record is persisted, the appended audit events
end with exactly one TRIAGE_FAILED event carrying the error message against
the ticket and trace (no earlier appended event is a TRIAGE_FAILED), and the
ticket keeps its prior status, assignee and replies - it is neither resolved
nor assigned by the failed run. -/
theorem C3_failed_run_aborts (db : DB) (trace : String)
    (classifyR : Except String Classification)
    (retrieveR : Except String (List Article)) (draftR : Except String Draft)
    (e : String)
    (hfail : (triageTicket db trace classifyR retrieveR draftR).2 = .error e) :
    (triageTicket db trace classifyR retrieveR draftR).1.suggestions =
      db.suggestions ∧
    (triageTicket db trace classifyR retrieveR draftR).1.ticket.status =
      db.ticket.status ∧
    (triageTicket db trace classifyR retrieveR draftR).1.ticket.assignee =
      db.ticket.assignee ∧
    (triageTicket db trace classifyR retrieveR draftR).1.ticket.replies =
      db.ticket.replies ∧
    ∃ pre : List AuditEvent,
      (triageTicket db trace classifyR retrieveR draftR).1.audit =
        db.audit ++ pre ++
          [{ ticketId := db.ticket.id, traceId := trace, actor := "system",
             action := AuditAction.TRIAGE_FAILED,
             meta := [("error", MetaVal.s e)] }] ∧
      ∀ ev ∈ pre, ev.action ≠ AuditAction.TRIAGE_FAILED := by
  rcases classifyR with e1 | cl
  · have he : e1 = e := by
      simpa only [triageTicket, logEvent, Except.error.injEq] using hfail
    subst he
    refine ⟨rfl, rfl, rfl, rfl, ?_⟩
    refine
      ⟨[{ ticketId := db.ticket.id, traceId := trace, actor := "system",
          action := AuditAction.TRIAGE_STARTED,
          meta := [("ticketTitle", MetaVal.s db.ticket.title),
                   ("category", MetaVal.s db.ticket.category.name)] }],
        by simp [triageTicket, logEvent], ?_⟩
    intro ev hev
    simp only [List.mem_singleton] at hev
    rw [hev]
    simp
  · rcases retrieveR with e2 | articles
    · have he : e2 = e := by
        simp only [triageTicket, logEvent] at hfail
        simpa only [Except.error.injEq] using hfail
      subst he
      simp only [triageTicket, logEvent]
      split_ifs with hmut <;>
      · refine ⟨rfl, rfl, rfl, rfl, ?_⟩
        refine
          ⟨[{ ticketId := db.ticket.id, traceId := trace, actor := "system",
              action := AuditAction.TRIAGE_STARTED,
              meta := [("ticketTitle", MetaVal.s db.ticket.title),
                       ("category", MetaVal.s db.ticket.category.name)] },
            { ticketId := db.ticket.id, traceId := trace, actor := "system",
              action := AuditAction.AGENT_CLASSIFIED,
              meta := [("originalCategory", MetaVal.s db.ticket.category.name),
                       ("predictedCategory", MetaVal.s cl.predictedCategory.name),
                       ("confidence", MetaVal.q cl.confidence)] }],
            by simp, ?_⟩
        intro ev hev
        simp only [List.mem_cons, List.mem_singleton, List.not_mem_nil, or_false] at hev
        rcases hev with hev | hev <;> rw [hev] <;> simp
    · rcases draftR with e3 | draft
      · have he : e3 = e := by
          simp only [triageTicket, logEvent] at hfail
          simpa only [Except.error.injEq] using hfail
        subst he
        simp only [triageTicket, logEvent]
        split_ifs with hmut <;>
        · refine ⟨rfl, rfl, rfl, rfl, ?_⟩
          refine
            ⟨[{ ticketId := db.ticket.id, traceId := trace, actor := "system",
                action := AuditAction.TRIAGE_STARTED,
                meta := [("ticketTitle", MetaVal.s db.ticket.title),
                         ("category", MetaVal.s db.ticket.category.name)] },
              { ticketId := db.ticket.id, traceId := trace, actor := "system",
                action := AuditAction.AGENT_CLASSIFIED,
                meta := [("originalCategory", MetaVal.s db.ticket.category.name),
                         ("predictedCategory", MetaVal.s cl.predictedCategory.name),
                         ("confidence", MetaVal.q cl.confidence)] },
              { ticketId := db.ticket.id, traceId := trace, actor := "system",
                action := AuditAction.KB_RETRIEVED,
                meta := [("query", MetaVal.s
                            (strTake (db.ticket.title ++ " " ++ db.ticket.description) 100)),
                         ("articlesFound", MetaVal.n articles.length),
                         ("articleIds", MetaVal.ids (articles.map (fun a => a.id))),
                         ("category", MetaVal.s cl.predictedCategory.name)] }],
              by simp, ?_⟩
          intro ev hev
          simp only [List.mem_cons, List.mem_singleton, List.not_mem_nil, or_false] at hev
          rcases hev with hev | hev | hev <;> rw [hev] <;> simp
      · exfalso
        simp only [triageTicket, logEvent] at hfail
        exact Except.noConfusion hfail

/-- Witness for claim C3: a run whose classification fails with "llm down"
leaves the fixture database without suggestions, with the ticket untouched,
and with a final TRIAGE_FAILED event carrying the message. -/
theorem C3_witness :
    (triageTicket cexDB "trace-1" (.error "llm down") (.ok []) (.ok cexDraft)).1.suggestions
        = cexDB.suggestions ∧
    (triageTicket cexDB "trace-1" (.error "llm down") (.ok []) (.ok cexDraft)).1.ticket.status
        = cexDB.ticket.status ∧
    (triageTicket cexDB "trace-1" (.error "llm down") (.ok []) (.ok cexDraft)).1.ticket.assignee
        = cexDB.ticket.assignee ∧
    (triageTicket cexDB "trace-1" (.error "llm down") (.ok []) (.ok cexDraft)).1.ticket.replies
        = cexDB.ticket.replies ∧
    ∃ pre : List AuditEvent,
      (triageTicket cexDB "trace-1" (.error "llm down") (.ok []) (.ok cexDraft)).1.audit =
        cexDB.audit ++ pre ++
          [{ ticketId := cexDB.ticket.id, traceId := "trace-1", actor := "system",
             action := AuditAction.TRIAGE_FAILED,
             meta := [("error", MetaVal.s "llm down")] }] ∧
      ∀ ev ∈ pre, ev.action ≠ AuditAction.TRIAGE_FAILED :=
  C3_failed_run_aborts cexDB "trace-1" (.error "llm down") (.ok []) (.ok cexDraft)
    "llm down" rfl

/-- Witness for claim C4: a billing prediction at confidence 0.8 on the
shipping fixture ticket is persisted even though retrieval then fails. -/
theorem C4_witness :
    (triageTicket cexDB "trace-1"
      (.ok { predictedCategory := Category.billing, confidence := 8 / 10 })
      (.error "kb down") (.error "not reached")).1.ticket.category =
      Category.billing :=
  C4_category_persisted cexDB "trace-1"
    { predictedCategory := Category.billing, confidence := 8 / 10 }
    (.error "kb down") (.error "not reached")
    (by decide) (by norm_num)

/-! ## Suggestion rejection: claim C10 -/

/-- Claim C10: rejecting an existing suggestion records accepted = false,
stores the rejecting actor, appends one SUGGESTION_REJECTED audit event whose
metadata carries the reason, and leaves the ticket - in particular its
status - unchanged. -/
theorem C10_reject_suggestion (db : DB) (suggestionId actorId : Nat)
    (reason : String) (s : Suggestion)
    (hfind : db.suggestions.find? (fun x => x.id == suggestionId) = some s) :
    ∃ db1 s1, rejectSuggestion db suggestionId actorId reason = .ok (db1, s1) ∧
      s1.accepted = some false ∧
      s1.acceptedBy = some actorId ∧
      db1.ticket = db.ticket ∧
      db1.audit = db.audit ++
        [{ ticketId := s.ticketId, traceId := s.traceId, actor := "agent",
           action := AuditAction.SUGGESTION_REJECTED,
           meta := [("suggestionId", MetaVal.n suggestionId),
                    ("agentId", MetaVal.n actorId),
                    ("reason", MetaVal.s reason)] }] := by
  simp only [rejectSuggestion, logEvent, hfind]
  exact ⟨_, _, rfl, rfl, rfl, rfl, rfl⟩

/-! ## Retriever ranking: claim C8 -/

/-- Claim C8 (amended): every article returned by search carries the composite
relevance score of the claim ROUNDED to hundredths
(`Math.round(score * 100) / 100`), the returned list is sorted in descending
order of this rounded score, and it holds at most `limit` articles. -/
theorem C8_ranking_rounded_sorted_truncated (phase1 phase2 : List Article)
    (query : String) (limit : Nat) :
    (searchArticles phase1 phase2 query limit).length ≤ limit ∧
    List.Sorted relevanceGE (searchArticles phase1 phase2 query limit) ∧
    ∀ x ∈ searchArticles phase1 phase2 query limit,
      x.relevanceScore = round100 (specCompositeScore x query) := by
  refine ⟨?_, ?_, ?_⟩
  · simp only [searchArticles]
    exact List.length_take_le _ _
  · simp only [searchArticles, scoreArticles]
    exact List.Pairwise.sublist (List.take_sublist _ _)
      (List.sorted_insertionSort relevanceGE _)
  · intro x hx
    simp only [searchArticles, scoreArticles] at hx
    have hx2 := List.mem_of_mem_take hx
    rw [List.mem_insertionSort] at hx2
    rcases List.mem_map.mp hx2 with ⟨a, ha, rfl⟩
    show (scoreArticle a (extractKeywords query)).relevanceScore = _
    have h1 : specCompositeScore (scoreArticle a (extractKeywords query)) query =
        specCompositeScore a query := rfl
    rw [h1]
    show round100 (rawRelevance a (extractKeywords query)) =
      round100 (specCompositeScore a query)
    have h2 : rawRelevance a (extractKeywords query) = specCompositeScore a query := by
      simp only [rawRelevance, specCompositeScore]
      ring
    rw [h2]

/-- Phase-1 article fixture whose full-text score 0.001 is not aligned to
hundredths. -/
def cexArticle : Article :=
  { id := 11, title := "", body := "", tags := [], helpful := 0, notHelpful := 0,
    score := 1 / 1000, relevanceScore := 0 }

/-- Claim C8 counterexample: on a single-candidate search the article comes
back with relevanceScore 0, while the composite score of the claim is 0.001;
the code rounds the composite score to hundredths before storing and sorting. -/
theorem C8_counterexample :
    ¬ (∀ x ∈ searchArticles [cexArticle] [] "xyz" 3,
        x.relevanceScore = specCompositeScore x "xyz") := by
  have hk : extractKeywords "xyz" = ["xyz"] := rfl
  have hm : countMatches "" ["xyz"] = 0 := rfl
  have ht : tagMatches ([] : List String) ["xyz"] = 0 := rfl
  have hraw : rawRelevance cexArticle ["xyz"] = 1 / 1000 := by
    simp only [rawRelevance, cexArticle, hm, ht]
    norm_num
  have hfloor : ⌊(1 / 1000 : ℚ) * 100 + 1 / 2⌋ = 0 := by
    rw [Int.floor_eq_zero_iff]
    constructor <;> norm_num
  have hr : round100 (1 / 1000 : ℚ) = 0 := by
    rw [round100, hfloor]
    norm_num
  have hsearch : searchArticles [cexArticle] [] "xyz" 3 =
      [{ cexArticle with relevanceScore := 0 }] := by
    simp only [searchArticles, scoreArticles, hk, scoreArticle, hraw, hr,
      List.map_nil, List.filter_nil, List.map_cons, List.length_singleton]
    norm_num [List.insertionSort, List.orderedInsert]
    rw [hraw, hr]
  intro h
  have hmem : { cexArticle with relevanceScore := (0 : ℚ) } ∈
      searchArticles [cexArticle] [] "xyz" 3 := by
    rw [hsearch]
    exact List.mem_singleton_self _
  have hval := h _ hmem
  have hspec : specCompositeScore { cexArticle with relevanceScore := (0 : ℚ) } "xyz" =
      1 / 1000 := by
    simp only [specCompositeScore, hk, cexArticle, hm, ht]
    norm_num
  rw [hspec] at hval
  norm_num at hval

/-- A concrete suggestion for the rejection fixture. -/
def cexSuggestion : Suggestion :=
  { id := 5, ticketId := 1, traceId := "trace-0",
    predictedCategory := Category.shipping, articleIds := [], draftReply := "d",
    confidence := 1 / 2, autoClosed := false, accepted := none,
    acceptedBy := none, acceptedAt := none }

/-- The fixture database holding one suggestion. -/
def cexDBWithSuggestion : DB :=
  { cexDB with suggestions := [cexSuggestion] }

/-- Witness for claim C10: rejecting the fixture suggestion with a concrete
reason. -/
theorem C10_witness :
    ∃ db1 s1,
      rejectSuggestion cexDBWithSuggestion 5 9 "wrong category" = .ok (db1, s1) ∧
      s1.accepted = some false ∧
      s1.acceptedBy = some 9 ∧
      db1.ticket = cexDBWithSuggestion.ticket ∧
      db1.audit = cexDBWithSuggestion.audit ++
        [{ ticketId := cexSuggestion.ticketId, traceId := cexSuggestion.traceId,
           actor := "agent", action := AuditAction.SUGGESTION_REJECTED,
           meta := [("suggestionId", MetaVal.n 5), ("agentId", MetaVal.n 9),
                    ("reason", MetaVal.s "wrong category")] }] :=
  C10_reject_suggestion cexDBWithSuggestion 5 9 "wrong category" cexSuggestion rfl

end Helpdesk
